import Mathlib

/-!
Verification of `epysurv.simulation.point_source.simulate_outbreaks`.

The repository file `src/epysurv/simulation/point_source.py` is a thin
wrapper: it forwards its parameters to the external statistical engine
(`surveillance.sim_pointSource`), converts the returned `(observed, state)`
lists into a frame, stamps a weekly date index on the rows, renames the
columns to `raw_cases` / `is_outbreak`, and derives
`n_outbreak_cases = raw_cases * is_outbreak` (line 81 of the source).

The engine itself and the helper utilities
(`r_list_to_frame`, `add_date_time_index_to_frame` from
`epysurv.simulation.utils`) are not present under `src/`, so those parts
are modelled from the specification (sections 3, 4.1 and 6): a two-state
latent Markov chain, a sinusoidal-log-linear seasonal baseline with period
52, one independent Poisson-distributed count draw per week, validation of
the parameter constraints before any computation, and a weekly date index
with 7-day spacing.  Randomness is embedded as an explicit stream of
uniform draws (for the chain transitions) and an abstract per-week count
draw (standing for the Poisson sample for that week), making the whole
pipeline a pure function of the configuration and the random source.
-/

/-- The immutable parameter set of `simulate_outbreaks`
(`SimulationConfig` in the spec).  Field names and order follow the
Python signature in `point_source.py` lines 13-24; `state = none` models
the Python default `state=None`.  Real-valued parameters are embedded as
exact rationals. -/
structure SimulationConfig where
  state_weight : ℚ
  p : ℚ
  r : ℚ
  length : ℤ
  amplitude : ℚ
  alpha : ℚ
  beta : ℚ
  phi : ℚ
  frequency : ℚ
  state : Option (List ℤ)
deriving DecidableEq

/-- Modelled from the spec (section 5): the random source of one
simulation run, made explicit.  `uniforms t` is the uniform draw consumed
by the `t`-th Markov-chain transition; `counts t` abstracts the Poisson
count draw for week `t` (one independent draw per week). -/
structure RandomSource where
  uniforms : ℕ → ℚ
  counts : ℕ → ℕ

/-- The error taxonomy of the spec (section 7) restricted to parameter
validation: `InvalidParameter` is raised on any constraint violation. -/
inductive SimError where
  | InvalidParameter
deriving DecidableEq

/-- One per-week record of the result frame.  The stochastic columns of
the output schema (spec section 6); the `mean` column is a deterministic
function of the configuration and the week index and is embedded
separately as `seasonalMean`. -/
structure SimRow where
  raw_cases : ℤ
  is_outbreak : ℤ
  n_outbreak_cases : ℤ
deriving DecidableEq

/-- Modelled from the spec (section 4.1, failure conditions): the
validation predicate of the engine, absent from `src/`.  True exactly when
`alpha < amplitude`, or `p` or `r` lies outside `[0,1]`, or `length <= 0`
with no `state` given, or `state` contains a value other than 0 or 1. -/
def invalidParams (cfg : SimulationConfig) : Bool :=
  decide (cfg.alpha < cfg.amplitude) ||
  decide (cfg.p < 0) || decide (1 < cfg.p) ||
  decide (cfg.r < 0) || decide (1 < cfg.r) ||
  (match cfg.state with
   | none => decide (cfg.length ≤ 0)
   | some s => s.any (fun x => !(decide (x = 0) || decide (x = 1))))

/-- Modelled from the spec (section 4.1, step 1): one transition of the
two-state latent Markov chain.  In state 1 the chain stays in state 1
with probability `p`; in state 0 it stays in state 0 with probability
`r`; each transition compares one independent uniform draw `u` against
the corresponding probability. -/
def chainStep (p r : ℚ) (s : ℤ) (u : ℚ) : ℤ :=
  if s = 1 then (if u < p then 1 else 0)
  else (if u < r then 0 else 1)

/-- Modelled from the spec (section 4.1, step 1): the latent state at
week `t`.  The initial state is 0 (no outbreak) by convention; the state
at week `t+1` is obtained from the state at week `t` by `chainStep`,
consuming the `t`-th uniform draw. -/
def stateAt (p r : ℚ) (u : ℕ → ℚ) : ℕ → ℤ
  | 0 => 0
  | t + 1 => chainStep p r (stateAt p r u t) (u t)

/-- Modelled from the spec (section 4.1, step 1): the generated latent
state sequence of a run of `n` weeks (used only when no `state`
override is supplied). -/
def genStates (p r : ℚ) (n : ℕ) (u : ℕ → ℚ) : List ℤ :=
  (List.range n).map (stateAt p r u)

/-- Modelled from the spec: the latent state sequence of a run - the
caller-supplied `state` when present (pass-through, no regeneration),
otherwise the Markov chain over `length` weeks. -/
def latentOf (cfg : SimulationConfig) (rng : RandomSource) : List ℤ :=
  match cfg.state with
  | some s => s
  | none => genStates cfg.p cfg.r cfg.length.toNat rng.uniforms

/-- Modelled from the spec (section 4.1, step 4): the observed counts,
one independent count draw per week of the latent sequence. -/
def observedFor (rng : RandomSource) (st : List ℤ) : List ℤ :=
  (List.range st.length).map (fun t => ((rng.counts t : ℕ) : ℤ))

/-- Modelled from the spec: the external engine `sim.pointSource`,
absent from `src/`.  Validates the parameters first (a failed validation
aborts before any computation begins) and otherwise returns the pair of
result lists `(observed, state)` that the wrapper receives. -/
def sim_pointSource (cfg : SimulationConfig) (rng : RandomSource) :
    Except SimError (List ℤ × List ℤ) :=
  if invalidParams cfg then .error .InvalidParameter
  else
    let st := latentOf cfg rng
    .ok (observedFor rng st, st)

/-- The wrapper `simulate_outbreaks` (point_source.py lines 64-82): calls
the engine, pairs the `observed` and `state` columns row by row
(`r_list_to_frame`), renames them to `raw_cases` / `is_outbreak`, and
derives `n_outbreak_cases = raw_cases * is_outbreak` (line 81). -/
def simulate_outbreaks (cfg : SimulationConfig) (rng : RandomSource) :
    Except SimError (List SimRow) :=
  match sim_pointSource cfg rng with
  | .error e => .error e
  | .ok (obs, st) =>
      .ok ((obs.zip st).map (fun q => ⟨q.1, q.2, q.1 * q.2⟩))

/-- Modelled from the spec (section 6): the date-indexing utility
`add_date_time_index_to_frame`, absent from `src/`.  Week `t` of a run
whose index starts at day `start` is stamped with day `start + 7 * t`
(weekly timestamps, 7-day spacing). -/
def weekTimestamp (start : ℤ) (t : ℕ) : ℤ :=
  start + 7 * t

/-- Modelled from the spec (section 6): the timestamp index of a result
of `n` rows, one timestamp per simulated week. -/
def dateIndex (start : ℤ) (n : ℕ) : List ℤ :=
  (List.range n).map (weekTimestamp start)

/-- Modelled from the spec (section 4.1, step 2): the seasonal baseline
mean of week `t`,
`exp (alpha + beta * t + amplitude * sin (frequency * 2π * (t + phi) / 52))`,
with the period fixed at 52. -/
noncomputable def seasonalMean (cfg : SimulationConfig) (t : ℕ) : ℝ :=
  Real.exp ((cfg.alpha : ℝ) + (cfg.beta : ℝ) * t +
    (cfg.amplitude : ℝ) *
      Real.sin ((cfg.frequency : ℝ) * (2 * Real.pi) * ((t : ℝ) + (cfg.phi : ℝ)) / 52))

/-- Replaces `cfg.length` (the only way the `length` parameter can reach
the engine), leaving every other parameter unchanged. -/
def setLength (cfg : SimulationConfig) (l : ℤ) : SimulationConfig :=
  ⟨cfg.state_weight, cfg.p, cfg.r, l, cfg.amplitude, cfg.alpha, cfg.beta,
   cfg.phi, cfg.frequency, cfg.state⟩

/-- The rational 99/100, written in fully reduced form so that concrete
comparisons against it evaluate by kernel reduction. -/
def q99 : ℚ := ⟨99, 100, by norm_num, by norm_num⟩

/-- The rational 1/100 in fully reduced form. -/
def q01 : ℚ := ⟨1, 100, by norm_num, by norm_num⟩

/-- The rational 1/2 in fully reduced form. -/
def qhalf : ℚ := ⟨1, 2, by norm_num, by norm_num⟩

/-- The scenario configuration of spec section 8:
`p=0.99, r=0.01, length=10, amplitude=0, alpha=2, beta=0, phi=0,
frequency=1, state_weight=0`, no `state` override. -/
def cfg_ok : SimulationConfig :=
  ⟨0, q99, q01, 10, 0, 2, 0, 0, 1, none⟩

/-- A valid configuration supplying the state chain `[0,0,1,1,0]` of
spec section 8. -/
def cfg_state : SimulationConfig :=
  ⟨0, q99, q01, 100, 1, 1, 0, 0, 1, some [0, 0, 1, 1, 0]⟩

/-- An invalid configuration: `alpha < amplitude`. -/
def cfg_bad : SimulationConfig :=
  ⟨0, q99, q01, 100, 2, 1, 0, 0, 1, none⟩

/-- A concrete random source: constant uniform draws of 1/2 and count
draw `t + 3` for week `t`. -/
def rng0 : RandomSource :=
  ⟨fun _ => qhalf, fun t => t + 3⟩

/-- The rows `simulate_outbreaks` produces for `cfg_state` and `rng0`. -/
def rows5 : List SimRow :=
  [⟨3, 0, 0⟩, ⟨4, 0, 0⟩, ⟨5, 1, 5⟩, ⟨6, 1, 6⟩, ⟨7, 0, 0⟩]

instance {ε α : Type} [DecidableEq ε] [DecidableEq α] : DecidableEq (Except ε α)
  | .error a, .error b =>
      if h : a = b then .isTrue (by rw [h])
      else .isFalse (fun hc => h (Except.error.inj hc))
  | .error _, .ok _ => .isFalse (fun hc => Except.noConfusion hc)
  | .ok _, .error _ => .isFalse (fun hc => Except.noConfusion hc)
  | .ok a, .ok b =>
      if h : a = b then .isTrue (by rw [h])
      else .isFalse (fun hc => h (Except.ok.inj hc))

/-- Extracts the raw_cases column from a simulation outcome (used to
state determinism of the draws). -/
def rawCasesColumn (e : Except SimError (List SimRow)) : Option (List ℤ) :=
  match e with
  | .error _ => none
  | .ok rows => some (rows.map SimRow.raw_cases)

/-- Modelled from the Python call convention of `simulate_outbreaks`
(point_source.py lines 13-24): one argument slot per parameter, `none`
meaning the caller omitted that argument.  (`state` is `Option` already
in `SimulationConfig`; its Python default is `None`, so an omitted
`state` and an explicit `None` coincide.) -/
structure CallArgs where
  state_weight : Option ℚ
  p : Option ℚ
  r : Option ℚ
  length : Option ℤ
  amplitude : Option ℚ
  alpha : Option ℚ
  beta : Option ℚ
  phi : Option ℚ
  frequency : Option ℚ
  state : Option (List ℤ)
deriving DecidableEq

/-- Binding of a call to the signature of `simulate_outbreaks`
(point_source.py lines 13-24): every parameter except `state_weight`
has a declared default (`p=0.99, r=0.01, length=100, amplitude=1,
alpha=1, beta=0, phi=0, frequency=1, state=None`); `state_weight` has
none, so a call omitting it fails to bind (Python raises `TypeError`
before the function body runs), modelled as `none` - even though the
docstring (lines 53-54) describes `state_weight` as having default 0. -/
def bindArgs (a : CallArgs) : Option SimulationConfig :=
  match a.state_weight with
  | none => none
  | some w =>
      some ⟨w, a.p.getD q99, a.r.getD q01, a.length.getD 100,
        a.amplitude.getD 1, a.alpha.getD 1, a.beta.getD 0, a.phi.getD 0,
        a.frequency.getD 1, a.state⟩

/-- The outcome of a Python-level call: `none` when argument binding
fails (no simulation is performed at all), otherwise the simulation
outcome for the bound configuration. -/
def callOutcome (a : CallArgs) (rng : RandomSource) :
    Option (Except SimError (List SimRow)) :=
  (bindArgs a).map (fun cfg => simulate_outbreaks cfg rng)

theorem q99_eq : q99 = 0.99 := by
  rw [q99, Rat.mk'_eq_divInt, Rat.divInt_eq_div]; norm_num

theorem q01_eq : q01 = 0.01 := by
  rw [q01, Rat.mk'_eq_divInt, Rat.divInt_eq_div]; norm_num

theorem chainStep_zero_or_one (p r : ℚ) (s : ℤ) (u : ℚ) :
    chainStep p r s u = 0 ∨ chainStep p r s u = 1 := by
  unfold chainStep
  split <;> split <;> simp

theorem stateAt_zero_or_one (p r : ℚ) (u : ℕ → ℚ) (t : ℕ) :
    stateAt p r u t = 0 ∨ stateAt p r u t = 1 := by
  cases t with
  | zero => exact Or.inl rfl
  | succ t => exact chainStep_zero_or_one p r (stateAt p r u t) (u t)

theorem latentOf_zero_or_one (cfg : SimulationConfig) (rng : RandomSource)
    (hinv : invalidParams cfg = false) :
    ∀ x ∈ latentOf cfg rng, x = 0 ∨ x = 1 := by
  intro x hx
  unfold latentOf at hx
  cases hstate : cfg.state with
  | none =>
      rw [hstate] at hx
      unfold genStates at hx
      rcases List.mem_map.mp hx with ⟨t, _, rfl⟩
      exact stateAt_zero_or_one cfg.p cfg.r rng.uniforms t
  | some s =>
      rw [hstate] at hx
      change x ∈ s at hx
      unfold invalidParams at hinv
      rw [hstate] at hinv
      simp only [Bool.or_eq_false_iff, decide_eq_false_iff_not] at hinv
      by_contra hcon
      push_neg at hcon
      have hany := hinv.2
      simp at hany
      exact hcon.2 (hany x hx hcon.1)

theorem observedFor_length (rng : RandomSource) (st : List ℤ) :
    (observedFor rng st).length = st.length := by
  simp [observedFor]

theorem observedFor_nonneg (rng : RandomSource) (st : List ℤ) :
    ∀ x ∈ observedFor rng st, 0 ≤ x := by
  intro x hx
  rcases List.mem_map.mp hx with ⟨t, _, rfl⟩
  exact Int.natCast_nonneg _

theorem simulate_ok_elim {cfg : SimulationConfig} {rng : RandomSource}
    {rows : List SimRow} (h : simulate_outbreaks cfg rng = .ok rows) :
    invalidParams cfg = false ∧
    rows = ((observedFor rng (latentOf cfg rng)).zip (latentOf cfg rng)).map
      (fun q => (⟨q.1, q.2, q.1 * q.2⟩ : SimRow)) := by
  unfold simulate_outbreaks sim_pointSource at h
  cases hinv : invalidParams cfg with
  | true => rw [hinv] at h; simp at h
  | false =>
      rw [hinv] at h
      simp only [if_false, Bool.false_eq_true] at h
      exact ⟨rfl, (Except.ok.inj h).symm⟩

theorem simulate_error_of_invalid {cfg : SimulationConfig} (rng : RandomSource)
    (hinv : invalidParams cfg = true) :
    simulate_outbreaks cfg rng = .error .InvalidParameter := by
  unfold simulate_outbreaks sim_pointSource
  rw [hinv]
  simp

/-- Claim C1: every result row of `simulate_outbreaks` satisfies
`n_outbreak_cases = raw_cases * is_outbreak`; equivalently the value
equals `raw_cases` when `is_outbreak = 1` and equals 0 when
`is_outbreak = 0` (point_source.py line 81). -/
theorem n_outbreak_cases_eq_product (cfg : SimulationConfig)
    (rng : RandomSource) (rows : List SimRow)
    (h : simulate_outbreaks cfg rng = .ok rows) :
    ∀ row ∈ rows,
      row.n_outbreak_cases = row.raw_cases * row.is_outbreak ∧
      (row.is_outbreak = 1 → row.n_outbreak_cases = row.raw_cases) ∧
      (row.is_outbreak = 0 → row.n_outbreak_cases = 0) := by
  intro row hrow
  rcases simulate_ok_elim h with ⟨_, rfl⟩
  rcases List.mem_map.mp hrow with ⟨q, _, rfl⟩
  refine ⟨rfl, fun h1 => ?_, fun h0 => ?_⟩
  · show q.1 * q.2 = q.1
    have : q.2 = 1 := h1
    rw [this, mul_one]
  · show q.1 * q.2 = 0
    have : q.2 = 0 := h0
    rw [this, mul_zero]

/-- Witness for C1 at the concrete run `cfg_state`, `rng0`: the third
row of `rows5` satisfies the product law. -/
theorem n_outbreak_cases_eq_product_witness :
    (⟨5, 1, 5⟩ : SimRow).n_outbreak_cases =
      (⟨5, 1, 5⟩ : SimRow).raw_cases * (⟨5, 1, 5⟩ : SimRow).is_outbreak ∧
    ((⟨5, 1, 5⟩ : SimRow).is_outbreak = 1 →
      (⟨5, 1, 5⟩ : SimRow).n_outbreak_cases = (⟨5, 1, 5⟩ : SimRow).raw_cases) ∧
    ((⟨5, 1, 5⟩ : SimRow).is_outbreak = 0 →
      (⟨5, 1, 5⟩ : SimRow).n_outbreak_cases = 0) :=
  n_outbreak_cases_eq_product cfg_state rng0 rows5 (by decide)
    ⟨5, 1, 5⟩ (by decide)

/-- Claim C2: `simulate_outbreaks` fails with `InvalidParameter` exactly
when `alpha < amplitude`, or `p` or `r` lies outside `[0,1]`, or
`length <= 0` with no `state` given, or `state` contains a value other
than 0 or 1; and a failing configuration fails for every random source
(validation aborts before any computation, so no draw is consumed and no
partial result exists). -/
theorem simulate_outbreaks_invalid_iff (cfg : SimulationConfig)
    (rng : RandomSource) :
    (simulate_outbreaks cfg rng = .error .InvalidParameter ↔
      (cfg.alpha < cfg.amplitude ∨ cfg.p < 0 ∨ 1 < cfg.p ∨
       cfg.r < 0 ∨ 1 < cfg.r ∨
       (cfg.length ≤ 0 ∧ cfg.state = none) ∨
       (∃ s, cfg.state = some s ∧ ∃ x ∈ s, x ≠ 0 ∧ x ≠ 1))) ∧
    (simulate_outbreaks cfg rng = .error .InvalidParameter →
      ∀ rng2 : RandomSource,
        simulate_outbreaks cfg rng2 = .error .InvalidParameter) := by
  have hiff : invalidParams cfg = true ↔
      (cfg.alpha < cfg.amplitude ∨ cfg.p < 0 ∨ 1 < cfg.p ∨
       cfg.r < 0 ∨ 1 < cfg.r ∨
       (cfg.length ≤ 0 ∧ cfg.state = none) ∨
       (∃ s, cfg.state = some s ∧ ∃ x ∈ s, x ≠ 0 ∧ x ≠ 1)) := by
    unfold invalidParams
    cases hstate : cfg.state with
    | none => simp [hstate]; tauto
    | some s =>
        simp only [hstate, Bool.or_eq_true, decide_eq_true_eq,
          List.any_eq_true, Bool.not_eq_eq_eq_not, Bool.not_true,
          Bool.or_eq_false_iff, decide_eq_false_iff_not]
        constructor
        · rintro (hor | ⟨x, hx, h0, h1⟩)
          · tauto
          · refine Or.inr (Or.inr (Or.inr (Or.inr (Or.inr (Or.inr ?_)))))
            exact ⟨s, rfl, x, hx, h0, h1⟩
        · rintro (h | h | h | h | h | ⟨_, hn⟩ | ⟨s2, hs2, x, hx, h0, h1⟩)
          · tauto
          · tauto
          · tauto
          · tauto
          · tauto
          · cases hn
          · rcases Option.some.inj hs2 with rfl
            exact Or.inr ⟨x, hx, h0, h1⟩
  constructor
  · constructor
    · intro herr
      cases hv : invalidParams cfg with
      | true => exact hiff.mp hv
      | false =>
          exfalso
          unfold simulate_outbreaks sim_pointSource at herr
          rw [hv] at herr
          simp at herr
    · intro hcond
      exact simulate_error_of_invalid rng (hiff.mpr hcond)
  · intro herr rng2
    cases hv : invalidParams cfg with
    | true => exact simulate_error_of_invalid rng2 hv
    | false =>
        exfalso
        unfold simulate_outbreaks sim_pointSource at herr
        rw [hv] at herr
        simp at herr

/-- Witness for C2: the configuration `cfg_bad` (with `alpha = 1 <
amplitude = 2`) makes `simulate_outbreaks` fail with
`InvalidParameter`. -/
theorem simulate_outbreaks_invalid_iff_witness :
    simulate_outbreaks cfg_bad rng0 = .error .InvalidParameter :=
  (simulate_outbreaks_invalid_iff cfg_bad rng0).1.mpr (Or.inl (by decide))

/-- Claim C3: for every valid parameter set the result rows carry a
non-negative integer `raw_cases`, an `is_outbreak` value in {0,1} and a
non-negative integer `n_outbreak_cases`, and the timestamp index has one
entry per row, advances by exactly 7 days per week and is strictly
increasing.  (The `mean` column is the deterministic real `seasonalMean`
of the configuration and the week index.) -/
theorem simulate_outbreaks_schema (cfg : SimulationConfig)
    (rng : RandomSource) (rows : List SimRow) (start : ℤ)
    (h : simulate_outbreaks cfg rng = .ok rows) :
    (∀ row ∈ rows,
      0 ≤ row.raw_cases ∧
      (row.is_outbreak = 0 ∨ row.is_outbreak = 1) ∧
      0 ≤ row.n_outbreak_cases) ∧
    (dateIndex start rows.length).length = rows.length ∧
    (∀ t : ℕ, weekTimestamp start (t + 1) = weekTimestamp start t + 7) ∧
    StrictMono (weekTimestamp start) := by
  rcases simulate_ok_elim h with ⟨hinv, hrows⟩
  refine ⟨?_, ?_, ?_, ?_⟩
  · intro row hrow
    rw [hrows] at hrow
    rcases List.mem_map.mp hrow with ⟨q, hq, rfl⟩
    obtain ⟨a, b⟩ := q
    have hmem := List.of_mem_zip hq
    have ha : 0 ≤ a := observedFor_nonneg rng (latentOf cfg rng) a hmem.1
    have hb := latentOf_zero_or_one cfg rng hinv b hmem.2
    refine ⟨ha, hb, ?_⟩
    show 0 ≤ a * b
    rcases hb with hb | hb <;> simp [hb, ha]
  · simp [dateIndex]
  · intro t
    simp [weekTimestamp]
    ring
  · intro a b hab
    simp only [weekTimestamp]
    omega

/-- Witness for C3 at the concrete run `cfg_state`, `rng0`: the third
row of `rows5` satisfies the column constraints. -/
theorem simulate_outbreaks_schema_witness :
    0 ≤ (⟨5, 1, 5⟩ : SimRow).raw_cases ∧
    ((⟨5, 1, 5⟩ : SimRow).is_outbreak = 0 ∨
      (⟨5, 1, 5⟩ : SimRow).is_outbreak = 1) ∧
    0 ≤ (⟨5, 1, 5⟩ : SimRow).n_outbreak_cases :=
  (simulate_outbreaks_schema cfg_state rng0 rows5 0 (by decide)).1
    ⟨5, 1, 5⟩ (by decide)

theorem invalidParams_setLength (cfg : SimulationConfig) (l : ℤ)
    (s : List ℤ) (hs : cfg.state = some s) :
    invalidParams (setLength cfg l) = invalidParams cfg := by
  unfold invalidParams setLength
  simp only [hs]

theorem latentOf_setLength (cfg : SimulationConfig) (rng : RandomSource)
    (l : ℤ) (s : List ℤ) (hs : cfg.state = some s) :
    latentOf (setLength cfg l) rng = s := by
  unfold latentOf setLength
  simp only [hs]

/-- Claim C4: when a `state` sequence is supplied, the `is_outbreak`
column of the result equals it exactly, element for element and in
order, and the `length` parameter is ignored: replacing `length` by any
value gives the identical result. -/
theorem is_outbreak_passthrough (cfg : SimulationConfig)
    (rng : RandomSource) (s : List ℤ) (rows : List SimRow)
    (hs : cfg.state = some s)
    (h : simulate_outbreaks cfg rng = .ok rows) :
    rows.map SimRow.is_outbreak = s ∧
    ∀ l : ℤ, simulate_outbreaks (setLength cfg l) rng = .ok rows := by
  rcases simulate_ok_elim h with ⟨hinv, hrows⟩
  have hlat : latentOf cfg rng = s := by
    unfold latentOf
    rw [hs]
  constructor
  · rw [hrows, List.map_map]
    have hcomp : (SimRow.is_outbreak ∘ fun q : ℤ × ℤ =>
        (⟨q.1, q.2, q.1 * q.2⟩ : SimRow)) = Prod.snd := by
      funext q
      rfl
    rw [hcomp, hlat]
    exact List.map_snd_zip _ _ (le_of_eq (observedFor_length rng s).symm)
  · intro l
    have hinv2 : invalidParams (setLength cfg l) = false := by
      rw [invalidParams_setLength cfg l s hs]
      exact hinv
    have hlat2 : latentOf (setLength cfg l) rng = s :=
      latentOf_setLength cfg rng l s hs
    unfold simulate_outbreaks sim_pointSource
    rw [hinv2]
    simp only [Bool.false_eq_true, if_false]
    rw [hlat2, hrows, hlat]

/-- Witness for C4: the `is_outbreak` column of the run with supplied
state `[0,0,1,1,0]` is `[0,0,1,1,0]` verbatim. -/
theorem is_outbreak_passthrough_witness :
    rows5.map SimRow.is_outbreak = [0, 0, 1, 1, 0] :=
  (is_outbreak_passthrough cfg_state rng0 [0, 0, 1, 1, 0] rows5 rfl
    (by decide)).1

/-- Claim C5: for every valid parameter set, the number of result rows
equals `length` (as an integer, `length > 0` being guaranteed by
validation when no state is supplied), or equals the length of the
supplied `state` sequence. -/
theorem simulate_outbreaks_rowcount (cfg : SimulationConfig)
    (rng : RandomSource) (rows : List SimRow)
    (h : simulate_outbreaks cfg rng = .ok rows) :
    (∀ s, cfg.state = some s → rows.length = s.length) ∧
    (cfg.state = none → (rows.length : ℤ) = cfg.length) := by
  rcases simulate_ok_elim h with ⟨hinv, hrows⟩
  have hlen : rows.length = (latentOf cfg rng).length := by
    rw [hrows]
    simp [List.length_zip, observedFor_length]
  constructor
  · intro s hs
    rw [hlen]
    unfold latentOf
    rw [hs]
  · intro hs
    rw [hlen]
    unfold latentOf
    rw [hs]
    unfold genStates
    simp only [List.length_map, List.length_range]
    have hpos : ¬ cfg.length ≤ 0 := by
      unfold invalidParams at hinv
      rw [hs] at hinv
      simp only [Bool.or_eq_false_iff, decide_eq_false_iff_not] at hinv
      exact hinv.2
    omega

/-- Witness for C5: the run with supplied state `[0,0,1,1,0]` has
exactly 5 rows. -/
theorem simulate_outbreaks_rowcount_witness :
    rows5.length = ([0, 0, 1, 1, 0] : List ℤ).length :=
  (simulate_outbreaks_rowcount cfg_state rng0 rows5 (by decide)).1
    [0, 0, 1, 1, 0] rfl

/-- Claim C6: two runs with identical parameters and an identical random
source produce identical `raw_cases` sequences (two-run determinism:
the simulation consumes no randomness beyond the explicit source). -/
theorem simulate_outbreaks_deterministic (cfg1 cfg2 : SimulationConfig)
    (rng1 rng2 : RandomSource) (hc : cfg1 = cfg2) (hr : rng1 = rng2) :
    rawCasesColumn (simulate_outbreaks cfg1 rng1) =
      rawCasesColumn (simulate_outbreaks cfg2 rng2) := by
  rw [hc, hr]

/-- Witness for C6: two identically-seeded runs of the scenario
configuration agree on the `raw_cases` column. -/
theorem simulate_outbreaks_deterministic_witness :
    rawCasesColumn (simulate_outbreaks cfg_ok rng0) =
      rawCasesColumn (simulate_outbreaks cfg_ok rng0) :=
  simulate_outbreaks_deterministic cfg_ok cfg_ok rng0 rng0 rfl rfl

/-- Claim C8: the seasonal mean of week `t` equals
`exp (alpha + beta*t + amplitude * sin (frequency * 2π * (t + phi) / 52))`
with the period fixed at 52, and for the scenario configuration
(`amplitude=0, alpha=2, beta=0, phi=0, frequency=1, state_weight=0`) it
collapses to `exp 2` for every `t`. -/
theorem seasonalMean_formula :
    (∀ (cfg : SimulationConfig) (t : ℕ),
      seasonalMean cfg t =
        Real.exp ((cfg.alpha : ℝ) + (cfg.beta : ℝ) * t +
          (cfg.amplitude : ℝ) *
            Real.sin ((cfg.frequency : ℝ) * (2 * Real.pi) *
              ((t : ℝ) + (cfg.phi : ℝ)) / 52))) ∧
    (∀ t : ℕ, seasonalMean cfg_ok t = Real.exp 2) := by
  constructor
  · intro cfg t
    rfl
  · intro t
    unfold seasonalMean cfg_ok
    norm_num

/-- Claim C9: for every parameter set with `alpha >= amplitude`, the
seasonal baseline mean is strictly positive at every week index. -/
theorem seasonalMean_pos (cfg : SimulationConfig)
    (h : cfg.amplitude ≤ cfg.alpha) :
    ∀ t : ℕ, 0 < seasonalMean cfg t :=
  fun _ => Real.exp_pos _

/-- Witness for C9: the scenario configuration satisfies
`amplitude <= alpha` and has a positive mean at week 3. -/
theorem seasonalMean_pos_witness :
    cfg_ok.amplitude ≤ cfg_ok.alpha ∧ 0 < seasonalMean cfg_ok 3 :=
  ⟨by decide, seasonalMean_pos cfg_ok (by decide) 3⟩

/-- Claim C10: `state_weight` is the only parameter of
`simulate_outbreaks` without a default value: a call fails to bind
exactly when `state_weight` is omitted (in which case it fails for every
random source, before any simulation is performed), and whenever
`state_weight` is supplied the call binds even with every other
argument omitted, the documented defaults filling in. -/
theorem state_weight_required (a : CallArgs) (rng : RandomSource) :
    (callOutcome a rng = none ↔ a.state_weight = none) ∧
    (a.state_weight = none →
      ∀ rng2 : RandomSource, callOutcome a rng2 = none) ∧
    (∀ w, a.state_weight = some w →
      bindArgs a = some ⟨w, a.p.getD q99, a.r.getD q01, a.length.getD 100,
        a.amplitude.getD 1, a.alpha.getD 1, a.beta.getD 0, a.phi.getD 0,
        a.frequency.getD 1, a.state⟩) := by
  refine ⟨?_, ?_, ?_⟩
  · cases hw : a.state_weight with
    | none => simp [callOutcome, bindArgs, hw]
    | some w => simp [callOutcome, bindArgs, hw]
  · intro hw rng2
    simp [callOutcome, bindArgs, hw]
  · intro w hw
    simp [bindArgs, hw]

/-- Witness for C10: the call with every argument omitted fails to
bind, and supplying only `state_weight = 0` makes it bind. -/
theorem state_weight_required_witness :
    callOutcome ⟨none, none, none, none, none, none, none, none, none,
      none⟩ rng0 = none :=
  (state_weight_required ⟨none, none, none, none, none, none, none,
    none, none, none⟩ rng0).1.mpr rfl
